import Mathlib

/-!
Shallow embedding of the Ceph RGW multisite sync monitor
(src/backend/collector.py and src/backend/zone_agent.py), together with
theorems settling the specification claims about it.

Conventions of the embedding:
- Python strings are Lean String values; the character-level helpers below
  (strTrim, lowerStr, strContains, splitLines, ...) model the str methods
  used by the source (strip, lower, the in operator, splitlines, join).
  Python splitlines is modelled as splitting on the newline character; the
  collector always strips command output before parsing, so the texts fed
  to the parsers carry no trailing newline.  Python splitlines of the empty
  string is [] while the model gives [""]; an empty line matches nothing in
  any of the parsers, so every parser result is unaffected.
- The regular expressions of the source are embedded as explicit
  character-list matchers.  Each matcher is written for the one concrete
  pattern the source uses; for these patterns greedy matching with maximal
  munch is equivalent to backtracking (argued at each definition).
- Python integers from decoded JSON counters are modelled as Nat (they are
  object counts and sizes); arithmetic done on them by the collector
  (deltas) is modelled in Int exactly where the source subtracts.
- Python float percentages are modelled as Rat.  Python round(x, 2) is
  modelled as arithmetic rounding to two decimals (round half up); binary
  floating point representation error is not modelled.
- Python dicts holding per-key data are modelled either as association
  lists in insertion order (snapshot replicas) or as functions with
  pointwise update (the store, the parsed bucket-stats map).
-/

/- ================================================================
   String utilities (models of the Python str methods used)
   ================================================================ -/

/-- Model of the Python substring test (needle in hay). -/
def listContains (needle : List Char) : List Char → Bool
  | [] => needle.isEmpty
  | c :: t => needle.isPrefixOf (c :: t) || listContains needle t

/-- needle occurs in hay (Python: needle in hay). -/
def strContains (hay needle : String) : Bool := listContains needle.data hay.data

/-- Model of Python str.lower for the ASCII text involved. -/
def lowerStr (s : String) : String := String.mk (s.data.map Char.toLower)

/-- Whitespace trim on a character list. -/
def trimChars (l : List Char) : List Char :=
  ((l.dropWhile Char.isWhitespace).reverse.dropWhile Char.isWhitespace).reverse

/-- Model of Python str.strip (no arguments). -/
def strTrim (s : String) : String := String.mk (trimChars s.data)

/-- Model of Python str.startswith with a single literal. -/
def strStartsWith (s pre : String) : Bool := pre.data.isPrefixOf s.data

/-- Model of Python str.startswith with a tuple of literals. -/
def startsWithAny (s : String) (ps : List String) : Bool :=
  ps.any (fun p => strStartsWith s p)

/-- Split a character list at newline characters. -/
def splitCharsOnNl : List Char → List (List Char)
  | [] => [[]]
  | c :: t =>
    if c = '\n' then [] :: splitCharsOnNl t
    else
      match splitCharsOnNl t with
      | [] => [[c]]
      | h :: r => (c :: h) :: r

/-- Model of Python str.splitlines on newline-separated text. -/
def splitLines (s : String) : List String := (splitCharsOnNl s.data).map String.mk

/-- Join character lists with newline characters. -/
def joinNl : List (List Char) → List Char
  | [] => []
  | [l] => l
  | l :: r => l ++ '\n' :: joinNl r

/-- Model of the Python newline join of a list of lines. -/
def joinLines (ls : List String) : String := String.mk (joinNl (ls.map String.data))

/-- Decimal digits to a natural number (int of a digit group). -/
def digitsToNat (ds : List Char) : Nat :=
  ds.foldl (fun acc c => acc * 10 + (c.toNat - '0'.toNat)) 0

/-- Last element of a list, or the default when the list is empty. -/
def lastD (d : α) : List α → α
  | [] => d
  | a :: t => lastD a t

/-- First n characters of a string (Python slice s[:n]). -/
def takeStr (n : Nat) (s : String) : String := String.mk (s.data.take n)

/- ================================================================
   Regular-expression embeddings
   ================================================================ -/

/-- Tail of the header patterns after the opening parenthesis: the lazy
group (.+?) followed by a closing parenthesis captures the shortest
nonempty run up to the first closing parenthesis. -/
def matchTailParen (l : List Char) : Option String :=
  let cap := l.takeWhile (fun c => c != ')')
  match l.dropWhile (fun c => c != ')') with
  | ')' :: _ => if cap.isEmpty then none else some (String.mk cap)
  | _ => none

/-- The pattern fragment one-or-more-spaces, one-or-more-nonspaces,
one-or-more-spaces, opening parenthesis, lazy captured name, closing
parenthesis.  Maximal munch is equivalent to backtracking here: each
starred class is followed by a class disjoint from it. -/
def matchIdParen (l : List Char) : Option String :=
  let ws1 := l.takeWhile Char.isWhitespace
  let r2 := l.dropWhile Char.isWhitespace
  let nsp := r2.takeWhile (fun c => !c.isWhitespace)
  let r3 := r2.dropWhile (fun c => !c.isWhitespace)
  let ws2 := r3.takeWhile Char.isWhitespace
  let r4 := r3.dropWhile Char.isWhitespace
  if ws1.isEmpty || nsp.isEmpty || ws2.isEmpty then none
  else
    match r4 with
    | '(' :: rest => matchTailParen rest
    | _ => none

/-- Like matchIdParen but the leading whitespace may be empty (used after a
literal that ends in a colon, where the source pattern has a starred
whitespace class). -/
def matchIdParenStar (l : List Char) : Option String :=
  let r2 := l.dropWhile Char.isWhitespace
  let nsp := r2.takeWhile (fun c => !c.isWhitespace)
  let r3 := r2.dropWhile (fun c => !c.isWhitespace)
  let ws2 := r3.takeWhile Char.isWhitespace
  let r4 := r3.dropWhile Char.isWhitespace
  if nsp.isEmpty || ws2.isEmpty then none
  else
    match r4 with
    | '(' :: rest => matchTailParen rest
    | _ => none

/-- Anchored header matcher: the source patterns for realm, zonegroup and
zone lines, applied with re.match to the stripped line. -/
def matchHeader (kw : String) (s : String) : Option String :=
  if kw.data.isPrefixOf s.data then matchIdParen (s.data.drop kw.data.length)
  else none

/-- Try every start position from the left (re.search semantics). -/
def searchWith (tryAt : List Char → Option α) : List Char → Option α
  | [] => tryAt []
  | c :: t =>
    match tryAt (c :: t) with
    | some r => some r
    | none => searchWith tryAt t

/-- Anchored matcher for the shard-count patterns: a literal such as
"full sync:", starred whitespace, digits, a slash, digits, starred
whitespace, then the literal "shard" (the optional plural s constrains
nothing further). -/
def countsAt (lit : List Char) (l : List Char) : Option (Nat × Nat) :=
  if lit.isPrefixOf l then
    let r1 := (l.drop lit.length).dropWhile Char.isWhitespace
    let d1 := r1.takeWhile Char.isDigit
    let r2 := r1.dropWhile Char.isDigit
    if d1.isEmpty then none
    else
      match r2 with
      | '/' :: r3 =>
        let d2 := r3.takeWhile Char.isDigit
        let r4 := r3.dropWhile Char.isDigit
        if d2.isEmpty then none
        else if ("shard".data).isPrefixOf (r4.dropWhile Char.isWhitespace) then
          some (digitsToNat d1, digitsToNat d2)
        else none
      | _ => none
  else none

/-- Search a line for a shard-count pattern (re.search on the stripped
line, case sensitive). -/
def searchCounts (lit : List Char) (l : List Char) : Option (Nat × Nat) :=
  searchWith (countsAt lit) l

/-- Anchored matcher for the behind-shard detail pattern: the literal
"shard", whitespace, digits, then "behind" somewhere in the rest.  The
source applies it case-insensitively; callers pass the lowered line. -/
def shardBehindAt (l : List Char) : Option Nat :=
  if ("shard".data).isPrefixOf l then
    let r1 := l.drop 5
    let ws := r1.takeWhile Char.isWhitespace
    let r2 := r1.dropWhile Char.isWhitespace
    let ds := r2.takeWhile Char.isDigit
    let r3 := r2.dropWhile Char.isDigit
    if ws.isEmpty || ds.isEmpty then none
    else if listContains ("behind".data) r3 then some (digitsToNat ds) else none
  else none

/-- Search a lowered line for the behind-shard detail pattern. -/
def searchShardBehind (l : List Char) : Option Nat :=
  searchWith shardBehindAt l

/-- Anchored matcher for the data-sync-source header pattern. -/
def dataSyncSourceAt (l : List Char) : Option String :=
  if ("data sync source:".data).isPrefixOf l then
    matchIdParenStar (l.drop ("data sync source:".data).length)
  else none

/-- Search a line for the data-sync-source header pattern. -/
def searchDataSyncSource (l : List Char) : Option String :=
  searchWith dataSyncSourceAt l

/-- Anchored matcher for the source-zone header pattern of the bucket sync
status output. -/
def sourceZoneAt (l : List Char) : Option String :=
  if ("source zone".data).isPrefixOf l then
    matchIdParen (l.drop ("source zone".data).length)
  else none

/-- Search a line for the source-zone header pattern. -/
def searchSourceZone (l : List Char) : Option String :=
  searchWith sourceZoneAt l

/-- Anchored matcher for bucket shard detail lines: the literal
"bucket shard", whitespace, digits, a colon, then the captured rest; the
source stores the stripped capture, which equals the trim of the rest. -/
def matchBucketShard (s : String) : Option (Nat × String) :=
  let l := s.data
  if ("bucket shard".data).isPrefixOf l then
    let r1 := l.drop ("bucket shard".data).length
    let ws := r1.takeWhile Char.isWhitespace
    let r2 := r1.dropWhile Char.isWhitespace
    let ds := r2.takeWhile Char.isDigit
    let r3 := r2.dropWhile Char.isDigit
    if ws.isEmpty || ds.isEmpty then none
    else
      match r3 with
      | ':' :: r4 => some (digitsToNat ds, strTrim (String.mk r4))
      | _ => none
  else none

/- ================================================================
   Text block extraction (identical in collector.py and zone_agent.py;
   defined once and shared by both embeddings)
   ================================================================ -/

/-- Continuation keywords of the block extractor. -/
def contKeywords : List String := ["full", "incremental", "metadata", "data", "shard"]

/-- Loop of the block extractor (source: _extract_block).  The header
pattern is the literal "metadata sync", searched case-insensitively, hence
the lowered substring test.  A captured block ends at the first nonempty
line that is indented by less than eight spaces, is not a tab line, and
does not start with a continuation keyword. -/
def extract_block_go (pat : String) (capturing : Bool) (acc : List String) :
    List String → List String
  | [] => acc
  | line :: rest =>
    if strContains (lowerStr line) (lowerStr pat) then
      extract_block_go pat true (acc ++ [line]) rest
    else if capturing then
      if strTrim line != "" && !(strStartsWith line "        ") &&
          !(strStartsWith line "\t") && !acc.isEmpty &&
          !(startsWithAny (strTrim line) contKeywords) then
        acc
      else extract_block_go pat true (acc ++ [line]) rest
    else extract_block_go pat false acc rest

/-- Extract a contiguous block starting at the header pattern
(source: _extract_block). -/
def extract_block (pat : String) (text : String) : String :=
  joinLines (extract_block_go pat false [] (splitLines text))

/-- Loop of the data-sync block splitter (source:
_extract_data_sync_blocks).  A block ends at a nonempty line that does not
start with a space, or at the next data-sync-source header. -/
def extract_data_sync_go (cur : Option (String × List String))
    (blocks : List (String × List String)) :
    List String → List (String × List String)
  | [] =>
    match cur with
    | some c => blocks ++ [c]
    | none => blocks
  | line :: rest =>
    match searchDataSyncSource line.data with
    | some name =>
      let blocks2 :=
        match cur with
        | some c => blocks ++ [c]
        | none => blocks
      extract_data_sync_go (some (name, [line])) blocks2 rest
    | none =>
      match cur with
      | none => extract_data_sync_go none blocks rest
      | some (z, ls) =>
        if strTrim line != "" && !(strStartsWith line " ") then
          extract_data_sync_go none (blocks ++ [(z, ls)]) rest
        else extract_data_sync_go (some (z, ls ++ [line])) blocks rest

/-- Extract each data-sync-source block with its source zone name
(source: _extract_data_sync_blocks). -/
def extract_data_sync_blocks (text : String) : List (String × String) :=
  (extract_data_sync_go none [] (splitLines text)).map (fun p => (p.1, joinLines p.2))

/-- Loop of the source-zone block splitter of the bucket sync status
parser (source: _extract_source_zone_blocks and the inline copy in
zone_agent.py).  Blocks here are unbounded: only the next source-zone
header or the end of the text terminates one. -/
def extract_source_zone_go (cur : Option (String × List String))
    (blocks : List (String × List String)) :
    List String → List (String × List String)
  | [] =>
    match cur with
    | some c => blocks ++ [c]
    | none => blocks
  | line :: rest =>
    match searchSourceZone line.data with
    | some name =>
      let blocks2 :=
        match cur with
        | some c => blocks ++ [c]
        | none => blocks
      extract_source_zone_go (some (name, [line])) blocks2 rest
    | none =>
      match cur with
      | none => extract_source_zone_go none blocks rest
      | some (z, ls) => extract_source_zone_go (some (z, ls ++ [line])) blocks rest

/-- Extract each source-zone block with its zone name. -/
def extract_source_zone_blocks (text : String) : List (String × String) :=
  (extract_source_zone_go none [] (splitLines text)).map (fun p => (p.1, joinLines p.2))

/- ================================================================
   Sync block parsers
   ================================================================ -/

/-- Parsed sync block of the primary collector (source: collector.py
_parse_sync_block).  A behind-shard detail is the pair of the captured
shard id and the stripped line. -/
structure SyncBlock where
  status : String
  full_sync_done : Nat
  full_sync_total : Nat
  incremental_sync_done : Nat
  incremental_sync_total : Nat
  behind_shards : List (Nat × String)
  raw : String
deriving DecidableEq, Repr

namespace Collector

/-- Per-line update of the collector sync block parser.  The source runs
two successive independent if statements (first the syncing test, then the
caught-up test), so a caught-up match on the line wins over a syncing
match on the same line; this collapses to the nested conditional below. -/
def parse_sync_block_line (r : SyncBlock) (line : String) : SyncBlock :=
  let s := strTrim line
  let ls := lowerStr s
  { status :=
      if strContains ls "caught up" then "caught up"
      else if strContains ls "syncing" && !(strContains ls "sync:") then "syncing"
      else r.status,
    full_sync_done :=
      match searchCounts ("full sync:".data) s.data with
      | some dt => dt.1
      | none => r.full_sync_done,
    full_sync_total :=
      match searchCounts ("full sync:".data) s.data with
      | some dt => dt.2
      | none => r.full_sync_total,
    incremental_sync_done :=
      match searchCounts ("incremental sync:".data) s.data with
      | some dt => dt.1
      | none => r.incremental_sync_done,
    incremental_sync_total :=
      match searchCounts ("incremental sync:".data) s.data with
      | some dt => dt.2
      | none => r.incremental_sync_total,
    behind_shards :=
      match searchShardBehind ls.data with
      | some n => r.behind_shards ++ [(n, s)]
      | none => r.behind_shards,
    raw := r.raw }

/-- Parse one sync block (source: collector.py _parse_sync_block). -/
def parse_sync_block (block : String) : SyncBlock :=
  (splitLines block).foldl parse_sync_block_line
    { status := "unknown", full_sync_done := 0, full_sync_total := 0,
      incremental_sync_done := 0, incremental_sync_total := 0,
      behind_shards := [], raw := strTrim block }

/-- Parsed global sync status of the collector (source: collector.py
parse_sync_status_text).  The metadata block is none exactly when the
extracted block text is empty (the source keeps an empty dict then);
each data-sync entry is paired with its source zone name. -/
structure SyncStatusResult where
  realm : String
  zonegroup : String
  zone : String
  metadata_sync : Option SyncBlock
  data_sync : List (String × SyncBlock)
deriving DecidableEq, Repr

/-- Header-line update shared by the parsers: try the realm, zonegroup and
zone patterns in order on the stripped line; a later matching line
overwrites an earlier value. -/
def header_step (h : String × String × String) (line : String) :
    String × String × String :=
  let s := strTrim line
  match matchHeader "realm" s with
  | some n => (n, h.2.1, h.2.2)
  | none =>
    match matchHeader "zonegroup" s with
    | some n => (h.1, n, h.2.2)
    | none =>
      match matchHeader "zone" s with
      | some n => (h.1, h.2.1, n)
      | none => h

/-- Parse the plain-text output of the global sync status command
(source: collector.py parse_sync_status_text). -/
def parse_sync_status_text (text : String) : SyncStatusResult :=
  let hdr := (splitLines text).foldl header_step ("", "", "")
  let mb := extract_block "metadata sync" text
  { realm := hdr.1, zonegroup := hdr.2.1, zone := hdr.2.2,
    metadata_sync := if mb = "" then none else some (parse_sync_block mb),
    data_sync :=
      (extract_data_sync_blocks text).map (fun p => (p.1, parse_sync_block p.2)) }

end Collector

/-- Parsed sync block of the secondary zone agent (source: zone_agent.py
_parse_sync_block); it carries no behind-shard details and no raw text. -/
structure AgentSyncBlock where
  status : String
  full_sync_done : Nat
  full_sync_total : Nat
  incremental_sync_done : Nat
  incremental_sync_total : Nat
deriving DecidableEq, Repr

namespace ZoneAgent

/-- Per-line update of the agent sync block parser (source: zone_agent.py
_parse_sync_block).  Unlike the collector version this is a three-way
chain whose last branch maps a line containing "behind" to the status
"behind". -/
def parse_sync_block_line (r : AgentSyncBlock) (line : String) : AgentSyncBlock :=
  let s := strTrim line
  let ls := lowerStr s
  { status :=
      if strContains ls "caught up" then "caught up"
      else if strContains ls "syncing" && !(strContains ls "sync:") then "syncing"
      else if strContains ls "behind" then "behind"
      else r.status,
    full_sync_done :=
      match searchCounts ("full sync:".data) s.data with
      | some dt => dt.1
      | none => r.full_sync_done,
    full_sync_total :=
      match searchCounts ("full sync:".data) s.data with
      | some dt => dt.2
      | none => r.full_sync_total,
    incremental_sync_done :=
      match searchCounts ("incremental sync:".data) s.data with
      | some dt => dt.1
      | none => r.incremental_sync_done,
    incremental_sync_total :=
      match searchCounts ("incremental sync:".data) s.data with
      | some dt => dt.2
      | none => r.incremental_sync_total }

/-- Parse one sync block (source: zone_agent.py _parse_sync_block). -/
def parse_sync_block (block : String) : AgentSyncBlock :=
  (splitLines block).foldl parse_sync_block_line
    { status := "unknown", full_sync_done := 0, full_sync_total := 0,
      incremental_sync_done := 0, incremental_sync_total := 0 }

/-- Parsed global sync status of the agent (source: zone_agent.py
parse_sync_status_text). -/
structure SyncStatusResult where
  realm : String
  zonegroup : String
  zone : String
  metadata_sync : Option AgentSyncBlock
  data_sync : List (String × AgentSyncBlock)
deriving DecidableEq, Repr

/-- Parse the plain-text output of the global sync status command
(source: zone_agent.py parse_sync_status_text; header handling and block
extraction are line-for-line the same code as in collector.py and reuse
the shared embeddings). -/
def parse_sync_status_text (text : String) : SyncStatusResult :=
  let hdr := (splitLines text).foldl Collector.header_step ("", "", "")
  let mb := extract_block "metadata sync" text
  { realm := hdr.1, zonegroup := hdr.2.1, zone := hdr.2.2,
    metadata_sync := if mb = "" then none else some (parse_sync_block mb),
    data_sync :=
      (extract_data_sync_blocks text).map (fun p => (p.1, parse_sync_block p.2)) }

end ZoneAgent

/- ================================================================
   Bucket sync status source-zone block parser (the function is
   character-for-character identical in collector.py and zone_agent.py,
   so one embedding serves both)
   ================================================================ -/

/-- Parsed source-zone block of the bucket sync status output.  A shard
detail is the pair of the captured shard id and the stripped captured
status text. -/
structure BucketSourceBlock where
  status : String
  full_sync_done : Nat
  full_sync_total : Nat
  incremental_sync_done : Nat
  incremental_sync_total : Nat
  shard_details : List (Nat × String)
deriving DecidableEq, Repr

/-- Per-line update of the bucket source block parser (source:
_parse_bucket_source_block, the three-way status chain with the sync-colon
exclusions, the two shard-count patterns, and the bucket-shard detail
pattern). -/
def parse_bucket_source_block_line (r : BucketSourceBlock) (line : String) :
    BucketSourceBlock :=
  let s := strTrim line
  let ls := lowerStr s
  { status :=
      if strContains ls "caught up" then "caught up"
      else if strContains ls "syncing" && !(strContains ls "sync:") then "syncing"
      else if strContains ls "behind" && !(strContains ls "sync:") then "behind"
      else r.status,
    full_sync_done :=
      match searchCounts ("full sync:".data) s.data with
      | some dt => dt.1
      | none => r.full_sync_done,
    full_sync_total :=
      match searchCounts ("full sync:".data) s.data with
      | some dt => dt.2
      | none => r.full_sync_total,
    incremental_sync_done :=
      match searchCounts ("incremental sync:".data) s.data with
      | some dt => dt.1
      | none => r.incremental_sync_done,
    incremental_sync_total :=
      match searchCounts ("incremental sync:".data) s.data with
      | some dt => dt.2
      | none => r.incremental_sync_total,
    shard_details :=
      match matchBucketShard s with
      | some nd => r.shard_details ++ [nd]
      | none => r.shard_details }

/-- Count-based status inference applied when no status keyword matched in
the block (source: the tail of _parse_bucket_source_block). -/
def infer_status_from_counts (r : BucketSourceBlock) : BucketSourceBlock :=
  if r.status = "unknown" then
    if r.incremental_sync_total > 0 && r.incremental_sync_done ≥ r.incremental_sync_total
        && r.full_sync_done ≥ r.full_sync_total then
      { r with status := "caught up" }
    else if r.incremental_sync_total > 0 || r.full_sync_total > 0 then
      { r with status := "syncing" }
    else r
  else r

/-- Parse one source-zone block of the bucket sync status output
(source: _parse_bucket_source_block in both files). -/
def parse_bucket_source_block (block : String) : BucketSourceBlock :=
  infer_status_from_counts
    ((splitLines block).foldl parse_bucket_source_block_line
      { status := "unknown", full_sync_done := 0, full_sync_total := 0,
        incremental_sync_done := 0, incremental_sync_total := 0,
        shard_details := [] })

/- ================================================================
   CLI runner with JSON decoding (source: collector.py run_cli_json)
   ================================================================ -/

/-- Outcome of the subprocess call made by the CLI runners: a timeout, any
other raised exception, or completion with an exit code, stdout and
stderr. -/
inductive ExecOutcome where
  | timeout
  | exc (msg : String)
  | completed (rc : Int) (stdout : String) (stderr : String)

/-- Result of run_cli_json.  An errorResult models the returned dict with
the _error flag set to True, carrying the error text and, where the source
includes them, the exit code and the truncated raw output; ok models a
successfully decoded JSON value. -/
inductive CliJsonResult (JVal : Type) where
  | errorResult (error : String) (rc : Option Int) (raw : Option String)
  | ok (v : JVal)
deriving DecidableEq

/-- c is an opening brace or an opening square bracket. -/
def isBracketChar (c : Char) : Bool := c = '{' || c = '['

/-- Index of the first opening brace or square bracket (the left-to-right
scan of the source). -/
def findBracket : List Char → Option Nat
  | [] => none
  | c :: t => if isBracketChar c then some 0 else (findBracket t).map (fun i => i + 1)

/-- Model of run_cli_json (source: collector.py lines 105 to 159).  The
JSON decoder json.loads is abstracted as the decode parameter: none models
a raised JSONDecodeError.  Every branch of the source returns a value;
the model is a total function, which is the never-raises guarantee. -/
def run_cli_json (decode : String → Option JVal) (o : ExecOutcome) : CliJsonResult JVal :=
  match o with
  | ExecOutcome.timeout => CliJsonResult.errorResult "timed out" none none
  | ExecOutcome.exc msg => CliJsonResult.errorResult msg none none
  | ExecOutcome.completed rc stdout stderr =>
    if rc ≠ 0 then CliJsonResult.errorResult (strTrim stderr) (some rc) none
    else
      let output := strTrim stdout
      match findBracket output.data with
      | none => CliJsonResult.errorResult "no JSON in output" none (some (takeStr 500 output))
      | some i =>
        match decode (String.mk (output.data.drop i)) with
        | some v => CliJsonResult.ok v
        | none => CliJsonResult.errorResult "JSON parse" none (some (takeStr 500 output))

/- ================================================================
   In-memory data store (source: collector.py SyncDataStore)
   ================================================================ -/

/-- The store, polymorphic in the snapshot and error entry payloads (the
source stores untyped dicts).  The per-bucket defaultdicts are modelled as
total functions whose default is the empty list. -/
structure SyncDataStore (σ ε : Type) where
  max_snapshots : Nat
  bucket_history : String → List σ
  global_history : List σ
  bucket_errors : String → List ε
  global_errors : List ε

/-- A fresh store with the given capacity. -/
def SyncDataStore.mkStore (σ ε : Type) (m : Nat) : SyncDataStore σ ε :=
  { max_snapshots := m, bucket_history := fun _ => [], global_history := [],
    bucket_errors := fun _ => [], global_errors := [] }

/-- Append then evict the oldest element when the capacity is exceeded
(source: the append and pop-front pair in add_bucket_snapshot and
add_global_snapshot). -/
def boundedAppend (m : Nat) (h : List σ) (s : σ) : List σ :=
  let h1 := h ++ [s]
  if m < h1.length then h1.drop 1 else h1

/-- Source: SyncDataStore.add_bucket_snapshot. -/
def SyncDataStore.add_bucket_snapshot (st : SyncDataStore σ ε) (b : String) (s : σ) :
    SyncDataStore σ ε :=
  { st with bucket_history := fun b2 =>
      if b2 = b then boundedAppend st.max_snapshots (st.bucket_history b) s
      else st.bucket_history b2 }

/-- Source: SyncDataStore.add_global_snapshot. -/
def SyncDataStore.add_global_snapshot (st : SyncDataStore σ ε) (s : σ) :
    SyncDataStore σ ε :=
  { st with global_history := boundedAppend st.max_snapshots st.global_history s }

/-- Source: SyncDataStore.set_bucket_errors. -/
def SyncDataStore.set_bucket_errors (st : SyncDataStore σ ε) (b : String)
    (errs : List ε) : SyncDataStore σ ε :=
  { st with bucket_errors := fun b2 => if b2 = b then errs else st.bucket_errors b2 }

/-- Source: SyncDataStore.set_global_errors. -/
def SyncDataStore.set_global_errors (st : SyncDataStore σ ε) (errs : List ε) :
    SyncDataStore σ ε :=
  { st with global_errors := errs }

/- ================================================================
   Bucket statistics parsing (source: SyncCollector._parse_bucket_stats)
   ================================================================ -/

/-- The rgw.main usage sub-record of one decoded bucket stats item.  A
field is none when the key is absent (the get defaults of the source
apply at use sites). -/
structure RgwMainUsage where
  num_objects : Option Nat
  size_kb : Option Nat
  size : Option Nat
  size_kb_actual : Option Nat
deriving DecidableEq, Repr

/-- One decoded bucket stats item.  A missing bucket key is the empty
string (the source uses a get with default empty string); a missing usage
or rgw.main sub-dict is none.  The bucket_quota sub-dict is copied through
opaquely by the source and is modelled as an opaque optional token. -/
structure BucketStatsItem where
  bucket : String
  rgw_main : Option RgwMainUsage
  num_shards : Option Nat
  bucket_quota : Option String
  zonegroup : Option String
  placement_rule : Option String
  marker : Option String
  id : Option String
deriving DecidableEq, Repr

/-- The per-bucket stats record the collector builds and stores. -/
structure BucketStats where
  num_objects : Nat
  size_kb : Nat
  size_actual : Nat
  num_shards : Nat
  bucket_quota : Option String
  zonegroup : String
  placement_rule : String
  marker : String
  id : String
deriving DecidableEq, Repr

/-- The stats record built from one item (the dict literal inside
_parse_bucket_stats).  size_actual is size_kb_actual times 1024 when that
key is present, else the size field with default zero. -/
def statsOfItem (it : BucketStatsItem) : BucketStats :=
  { num_objects := (it.rgw_main.bind RgwMainUsage.num_objects).getD 0,
    size_kb := (it.rgw_main.bind RgwMainUsage.size_kb).getD 0,
    size_actual :=
      match it.rgw_main.bind RgwMainUsage.size_kb_actual with
      | some k => k * 1024
      | none => (it.rgw_main.bind RgwMainUsage.size).getD 0,
    num_shards := it.num_shards.getD 0,
    bucket_quota := it.bucket_quota,
    zonegroup := it.zonegroup.getD "",
    placement_rule := it.placement_rule.getD "",
    marker := it.marker.getD "",
    id := it.id.getD "" }

/-- Model of SyncCollector._parse_bucket_stats: fold the items into a
dict, skipping items whose bucket name is empty; a later item with the
same name overwrites an earlier one (Python dict assignment).  The dict is
modelled as a function to an optional record. -/
def parse_bucket_stats (items : List BucketStatsItem) : String → Option BucketStats :=
  items.foldl
    (fun acc it =>
      if it.bucket = "" then acc
      else fun b => if b = it.bucket then some (statsOfItem it) else acc b)
    (fun _ => none)

/- ================================================================
   Per-bucket snapshot computation
   (source: SyncCollector._collect_bucket_stats)
   ================================================================ -/

/-- Arithmetic rounding to two decimals over the rationals, the model of
the Python round(x, 2) the source applies to percentages.  Python rounds
the nearest binary double with ties to even; on the exact rationals here
the model rounds half up, and no claim depends on tie behaviour. -/
def round2 (q : ℚ) : ℚ := (⌊q * 100 + 1/2⌋ : ℤ) / 100

/-- The zero-valued fallback stats used when a secondary has no record for
a bucket (the source builds a small dict with zero counters; fields the
computation never reads are defaulted). -/
def defaultSecStats : BucketStats :=
  { num_objects := 0, size_kb := 0, size_actual := 0, num_shards := 0,
    bucket_quota := none, zonegroup := "", placement_rule := "", marker := "", id := "" }

/-- The percentage computed for one secondary before rounding (source:
the pct variable): zero, overridden by the clamped ratio when the primary
has objects, or by one hundred when both sides are at zero. -/
def codePct (p sec : BucketStats) : ℚ :=
  if 0 < p.num_objects then
    min ((sec.num_objects : ℚ) / (p.num_objects : ℚ) * 100) 100
  else if p.num_objects = 0 ∧ sec.num_objects = 0 then 100
  else 0

/-- One per-secondary replica record (the dict stored under the zone name
in the replicas map): the secondary stats, both clamped deltas, and the
rounded percentage. -/
structure Replica where
  stats : BucketStats
  delta_objects : ℤ
  delta_size : ℤ
  sync_progress_pct : ℚ
deriving DecidableEq, Repr

/-- Build one replica record (the loop body over secondary zones). -/
def codeReplica (p sec : BucketStats) : Replica :=
  { stats := sec,
    delta_objects := max ((p.num_objects : ℤ) - (sec.num_objects : ℤ)) 0,
    delta_size := max ((p.size_actual : ℤ) - (sec.size_actual : ℤ)) 0,
    sync_progress_pct := round2 (codePct p sec) }

/-- One stored bucket snapshot.  The replicas dict is modelled as an
association list in secondary-zone order (zone names are distinct in a
discovered topology, one entry per secondary zone). -/
structure BucketSnapshot where
  timestamp : String
  primary_zone : String
  primary : BucketStats
  replicas : List (String × Replica)
  no_secondary_data : Bool
  single_zone : Bool
  sync_progress_pct : Option ℚ
  delta_objects : ℤ
  delta_size : ℤ
deriving DecidableEq, Repr

/-- Loop body over the secondary zones: append the replica record,
accumulate both clamped delta totals, and track the worst (minimum)
unrounded percentage. -/
def snapStep (p : BucketStats) (acc : BucketSnapshot × ℚ)
    (z : String × Option BucketStats) : BucketSnapshot × ℚ :=
  let sec := z.2.getD defaultSecStats
  let r := codeReplica p sec
  ({ acc.1 with
      replicas := acc.1.replicas ++ [(z.1, r)],
      delta_objects := acc.1.delta_objects + r.delta_objects,
      delta_size := acc.1.delta_size + r.delta_size },
   min acc.2 (codePct p sec))

/-- Build the snapshot for one bucket (source: the snapshot construction
inside _collect_bucket_stats).  secLookups pairs each secondary zone name
with the stats found for this bucket in that zone, none when the zone map
has no record for it.  Without comparison data the initial snapshot is
stored unchanged: a null percentage, zero deltas, no replicas. -/
def buildBucketSnapshot (ts master_name : String) (hasComparisonData singleZone : Bool)
    (primary : BucketStats) (secLookups : List (String × Option BucketStats)) :
    BucketSnapshot :=
  let base : BucketSnapshot :=
    { timestamp := ts, primary_zone := master_name, primary := primary,
      replicas := [],
      no_secondary_data := !hasComparisonData,
      single_zone := singleZone,
      sync_progress_pct := if !hasComparisonData then none else some 100,
      delta_objects := 0, delta_size := 0 }
  if !hasComparisonData then base
  else
    let res := secLookups.foldl (snapStep primary) (base, 100)
    { res.1 with sync_progress_pct := some (round2 res.2) }

/-- Model of the per-cycle part of _collect_bucket_stats after the stats
of every zone were fetched: primary_stats maps bucket names to the master
zone records, secondary_stats pairs each secondary zone name with its
(possibly empty) per-bucket map.  zones_with_data collects the secondaries
whose map is nonempty; comparison data exists when that list is nonempty;
single_zone holds when there are no secondary zones.  One snapshot is
produced per primary bucket. -/
def collectBucketSnapshots (ts master_name : String)
    (primary_stats : List (String × BucketStats))
    (secondary_stats : List (String × List (String × BucketStats))) :
    List (String × BucketSnapshot) :=
  let zones_with_data :=
    (secondary_stats.filter (fun z => !z.2.isEmpty)).map Prod.fst
  let hasComparisonData := !zones_with_data.isEmpty
  let singleZone := secondary_stats.isEmpty
  primary_stats.map (fun bp =>
    (bp.1,
     buildBucketSnapshot ts master_name hasComparisonData singleZone bp.2
       (secondary_stats.map (fun z => (z.1, z.2.lookup bp.1)))))

/- ================================================================
   Sync error collection (source: SyncCollector._collect_sync_errors)
   ================================================================ -/

/-- The info sub-record of one decoded sync error entry. -/
structure ErrEntryInfo where
  source_zone : Option String
  error_code : Option Int
  message : Option String
deriving DecidableEq, Repr

/-- One decoded sync error entry; none models a missing key. -/
structure ErrEntry where
  id : Option String
  «section» : Option String
  name : Option String
  timestamp : Option String
  info : Option ErrEntryInfo
deriving DecidableEq, Repr

/-- One decoded shard record of the sync error list. -/
structure ErrShard where
  shard_id : Option Nat
  entries : List ErrEntry
deriving DecidableEq, Repr

/-- One flattened sync error as stored (the dict built per entry).  A
none error_code models the "unknown" default of the source (the Python
field mixes integers with that string). -/
structure SyncError where
  shard_id : Option Nat
  entry_id : String
  «section» : String
  raw_name : String
  timestamp : String
  bucket : String
  source_zone : String
  error_code : Option Int
  message : String
deriving DecidableEq, Repr

/-- Bucket attribution: the substring of the raw name before the first
colon (raw_name.split with maxsplit one, first part), empty when the name
is empty. -/
def bucketOfRawName (raw : String) : String :=
  if raw = "" then "" else String.mk (raw.data.takeWhile (fun c => c != ':'))

/-- Build one flattened error from an entry (the dict literal inside
_collect_sync_errors).  ts is the cycle timestamp, the default for a
missing entry timestamp. -/
def entryToError (ts : String) (sid : Option Nat) (e : ErrEntry) : SyncError :=
  let raw := e.name.getD ""
  { shard_id := sid,
    entry_id := e.id.getD "",
    «section» := e.«section».getD "",
    raw_name := raw,
    timestamp := e.timestamp.getD ts,
    bucket := bucketOfRawName raw,
    source_zone := ((e.info.bind ErrEntryInfo.source_zone).getD ""),
    error_code := e.info.bind ErrEntryInfo.error_code,
    message := ((e.info.bind ErrEntryInfo.message).getD "") }

/-- The flat global error list of one cycle: every entry of every shard in
order. -/
def syncErrorsOf (ts : String) (shards : List ErrShard) : List SyncError :=
  shards.flatMap (fun sh => sh.entries.map (entryToError ts sh.shard_id))

/-- The bucket names credited with errors this cycle, in order of
appearance with duplicates; entries with an empty derived bucket name are
never grouped (the source guards the per-bucket append on a nonempty
name). -/
def cycleBuckets (ge : List SyncError) : List String :=
  (ge.map SyncError.bucket).filter (fun b => b != "")

/-- Model of the store mutation of _collect_sync_errors on a successful
decode: the global list is replaced wholesale, then the per-bucket list of
every bucket credited this cycle is replaced by its group.  The source
groups with a defaultdict while appending to the flat list, so the group
of a bucket equals the filter of the flat list by that bucket; iterating
the grouped dict items is modelled by folding over cycleBuckets, which
writes the same value for every occurrence of a name. -/
def collect_sync_errors_store (ts : String) (shards : List ErrShard)
    (st : SyncDataStore σ SyncError) : SyncDataStore σ SyncError :=
  let ge := syncErrorsOf ts shards
  let st1 := st.set_global_errors ge
  (cycleBuckets ge).foldl
    (fun s b => s.set_bucket_errors b (ge.filter (fun e => e.bucket == b))) st1

/- ================================================================
   Statement-side characterisations (used only in theorem statements)
   ================================================================ -/

/-- Status contributed by one line in the collector sync block parser:
a caught-up line wins over a syncing line within the same line. -/
def syncLineStatus (line : String) : Option String :=
  let ls := lowerStr (strTrim line)
  if strContains ls "caught up" then some "caught up"
  else if strContains ls "syncing" && !(strContains ls "sync:") then some "syncing"
  else none

/-- Status contributed by one line in the bucket source block parser. -/
def bucketLineStatus (line : String) : Option String :=
  let ls := lowerStr (strTrim line)
  if strContains ls "caught up" then some "caught up"
  else if strContains ls "syncing" && !(strContains ls "sync:") then some "syncing"
  else if strContains ls "behind" && !(strContains ls "sync:") then some "behind"
  else none

/-- Minimum of a list of rationals, zero for the empty list (used to state
that a headline percentage is the minimum over the per-secondary ones). -/
def minPct : List ℚ → ℚ
  | [] => 0
  | h :: t => t.foldl min h

/-- The percentage formula as the specification words it (stated on the
raw object counts; used to compare the code against the spec). -/
def specPct (pn sn : Nat) : ℚ :=
  if 0 < pn then min ((sn : ℚ) / (pn : ℚ) * 100) 100
  else if pn = 0 ∧ sn = 0 then 100
  else 0

/- ================================================================
   Concrete instances used by witnesses and counterexamples
   ================================================================ -/

/-- A primary stats record with one hundred objects. -/
def pStats100 : BucketStats := { defaultSecStats with num_objects := 100, size_actual := 1000 }

/-- A secondary stats record with eighty objects. -/
def sStats80 : BucketStats := { defaultSecStats with num_objects := 80, size_actual := 600 }

/-- A primary stats record with three objects. -/
def pStats3 : BucketStats := { defaultSecStats with num_objects := 3 }

/-- A secondary stats record with one object. -/
def sStats1 : BucketStats := { defaultSecStats with num_objects := 1 }

/-- A decoded bucket stats item with every usage key present. -/
def sampleStatsItem : BucketStatsItem :=
  { bucket := "b1",
    rgw_main := some { num_objects := some 5, size_kb := some 2, size := some 7,
                       size_kb_actual := some 3 },
    num_shards := some 11, bucket_quota := none, zonegroup := some "zg",
    placement_rule := none, marker := none, id := none }

/-- A realistic metadata sync block in which a syncing line is followed by
a line reporting that metadata is behind: the two sync-status parsers
disagree on it. -/
def agentDivergenceText : String :=
  "metadata sync syncing\n              full sync: 0/64 shards\n              incremental sync: 63/64 shards\n              metadata is behind on 1 shards"

/-- A block whose last status-setting line is a syncing line even though a
caught-up line occurs earlier after a syncing line. -/
def lateSyncingText : String := "syncing\nall caught up\nstill syncing"

/- ================================================================
   Helper lemmas
   ================================================================ -/

/-- Folding a per-line step whose projected field behaves like a
default-carrying per-line status yields the last contributed status. -/
theorem foldl_status_lastD {β : Type} (step : β → String → β) (proj : β → String)
    (stat : String → Option String)
    (hstep : ∀ r l, proj (step r l) = (stat l).getD (proj r)) :
    ∀ (lines : List String) (r : β),
      proj (lines.foldl step r) = lastD (proj r) (lines.filterMap stat) := by
  intro lines
  induction lines with
  | nil => intro r; rfl
  | cons l ls ih =>
    intro r
    rw [List.foldl_cons, ih (step r l), hstep r l]
    cases hs : stat l with
    | none => rw [List.filterMap_cons_none hs]; rfl
    | some s => rw [List.filterMap_cons_some hs]; rfl

/-- The status field of one collector sync-block line step is the status
contributed by the line, defaulting to the previous status. -/
theorem collector_sync_line_status (r : SyncBlock) (line : String) :
    (Collector.parse_sync_block_line r line).status = (syncLineStatus line).getD r.status := by
  simp only [Collector.parse_sync_block_line, syncLineStatus]
  by_cases h1 : strContains (lowerStr (strTrim line)) "caught up"
  · simp [h1]
  · by_cases h2 : strContains (lowerStr (strTrim line)) "syncing"
        && !(strContains (lowerStr (strTrim line)) "sync:")
    · simp [h1, h2]
    · simp [h1, h2]

/-- The status field of one bucket source-block line step is the status
contributed by the line, defaulting to the previous status. -/
theorem bucket_source_line_status (r : BucketSourceBlock) (line : String) :
    (parse_bucket_source_block_line r line).status = (bucketLineStatus line).getD r.status := by
  simp only [parse_bucket_source_block_line, bucketLineStatus]
  by_cases h1 : strContains (lowerStr (strTrim line)) "caught up"
  · simp [h1]
  · by_cases h2 : strContains (lowerStr (strTrim line)) "syncing"
        && !(strContains (lowerStr (strTrim line)) "sync:")
    · simp [h1, h2]
    · by_cases h3 : strContains (lowerStr (strTrim line)) "behind"
          && !(strContains (lowerStr (strTrim line)) "sync:")
      · simp [h1, h2, h3]
      · simp [h1, h2, h3]

/-- The collector block parser's status equals the status of the last
status-setting line, or unknown when no line set one. -/
theorem parse_sync_block_status (block : String) :
    (Collector.parse_sync_block block).status
      = lastD "unknown" ((splitLines block).filterMap syncLineStatus) := by
  unfold Collector.parse_sync_block
  exact foldl_status_lastD _ SyncBlock.status syncLineStatus
    collector_sync_line_status (splitLines block) _

/-- Count-based inference keeps all four shard-count fields unchanged. -/
theorem infer_counts_preserved (r : BucketSourceBlock) :
    (infer_status_from_counts r).full_sync_done = r.full_sync_done ∧
    (infer_status_from_counts r).full_sync_total = r.full_sync_total ∧
    (infer_status_from_counts r).incremental_sync_done = r.incremental_sync_done ∧
    (infer_status_from_counts r).incremental_sync_total = r.incremental_sync_total := by
  unfold infer_status_from_counts
  split_ifs <;> exact ⟨rfl, rfl, rfl, rfl⟩

/-- Shape of the count-based inference on a block whose keyword status is
still unknown. -/
theorem infer_shape (r : BucketSourceBlock) (h : r.status = "unknown") :
    (infer_status_from_counts r).status =
      (if r.incremental_sync_total > 0 ∧ r.incremental_sync_done ≥ r.incremental_sync_total
          ∧ r.full_sync_done ≥ r.full_sync_total then "caught up"
       else if r.incremental_sync_total > 0 ∨ r.full_sync_total > 0 then "syncing"
       else "unknown") := by
  unfold infer_status_from_counts
  rw [if_pos h]
  simp only [gt_iff_lt, ge_iff_le, Bool.and_eq_true, Bool.or_eq_true, decide_eq_true_eq]
  split_ifs with h1 h2 h3 h4 h5 <;> first | rfl | exact h | tauto

/- ================================================================
   C1
   ================================================================ -/

/-- Single step of the bounded append against the drop characterisation. -/
theorem boundedAppend_drop {σ : Type} (m : Nat) (ys : List σ) (x : σ) :
    boundedAppend m (ys.drop (ys.length - m)) x = (ys ++ [x]).drop (ys.length + 1 - m) := by
  unfold boundedAppend
  by_cases hm : ys.length < m
  · have h1 : ys.length - m = 0 := by omega
    have h2 : ys.length + 1 - m = 0 := by omega
    rw [h1, h2, List.drop_zero, List.drop_zero, if_neg]
    simp only [List.length_append, List.length_cons, List.length_nil]
    omega
  · have hml : m ≤ ys.length := Nat.not_lt.mp hm
    have hlen : (ys.drop (ys.length - m)).length = m := by
      rw [List.length_drop]; omega
    rw [if_pos (by simp only [List.length_append, hlen, List.length_cons, List.length_nil]; omega)]
    by_cases hz : m = 0
    · subst hz
      have : ys.drop (ys.length - 0) = [] := by
        rw [Nat.sub_zero, List.drop_length]
      rw [this]
      have : ys.length + 1 - 0 = (ys ++ [x]).length := by
        simp [List.length_append]
      rw [this, List.drop_length]
      rfl
    · have h1m : 1 ≤ (ys.drop (ys.length - m)).length := by omega
      rw [List.drop_append_of_le_length h1m, List.drop_drop,
          List.drop_append_of_le_length (by omega : ys.length + 1 - m ≤ ys.length)]
      have heq : ys.length - m + 1 = ys.length + 1 - m := by omega
      rw [heq]

/-- Folding bounded appends from the empty history keeps exactly the last
m appended elements. -/
theorem foldl_boundedAppend {σ : Type} (m : Nat) (xs : List σ) :
    xs.foldl (boundedAppend m) [] = xs.drop (xs.length - m) := by
  induction xs using List.reverseRecOn with
  | nil => simp
  | append_singleton ys x ih =>
    rw [List.foldl_append, List.foldl_cons, List.foldl_nil, ih, boundedAppend_drop]
    simp [List.length_append]

/-- Histories and capacity through the combined append step. -/
theorem fold_store_histories {σ ε : Type} (b : String) (xs : List σ) :
    ∀ (st : SyncDataStore σ ε),
      (xs.foldl (fun st2 s => (st2.add_bucket_snapshot b s).add_global_snapshot s) st).bucket_history b
          = xs.foldl (boundedAppend st.max_snapshots) (st.bucket_history b) ∧
      (xs.foldl (fun st2 s => (st2.add_bucket_snapshot b s).add_global_snapshot s) st).global_history
          = xs.foldl (boundedAppend st.max_snapshots) st.global_history := by
  induction xs with
  | nil => intro st; exact ⟨rfl, rfl⟩
  | cons x t ih =>
    intro st
    rw [List.foldl_cons, List.foldl_cons, List.foldl_cons]
    have hstep := ih ((st.add_bucket_snapshot b x).add_global_snapshot x)
    have hb : ((st.add_bucket_snapshot b x).add_global_snapshot x).bucket_history b
        = boundedAppend st.max_snapshots (st.bucket_history b) x := by
      simp [SyncDataStore.add_bucket_snapshot, SyncDataStore.add_global_snapshot]
    have hg : ((st.add_bucket_snapshot b x).add_global_snapshot x).global_history
        = boundedAppend st.max_snapshots st.global_history x := rfl
    have hm : ((st.add_bucket_snapshot b x).add_global_snapshot x).max_snapshots
        = st.max_snapshots := rfl
    rw [hstep.1, hstep.2, hb, hg, hm]
    exact ⟨rfl, rfl⟩

/-- C1: after any sequence of appends longer than the configured capacity,
both the per-bucket history and the global history of the store hold
exactly max_snapshots elements, namely the last max_snapshots appended
snapshots in append order (the oldest are evicted first). -/
theorem c1_bounded_history (σ : Type) (m : Nat) (b : String) (xs : List σ)
    (hx : m < xs.length) :
    ((xs.foldl (fun st s => (st.add_bucket_snapshot b s).add_global_snapshot s)
        (SyncDataStore.mkStore σ Unit m)).bucket_history b).length = m ∧
    (xs.foldl (fun st s => (st.add_bucket_snapshot b s).add_global_snapshot s)
        (SyncDataStore.mkStore σ Unit m)).bucket_history b = xs.drop (xs.length - m) ∧
    ((xs.foldl (fun st s => (st.add_bucket_snapshot b s).add_global_snapshot s)
        (SyncDataStore.mkStore σ Unit m)).global_history).length = m ∧
    (xs.foldl (fun st s => (st.add_bucket_snapshot b s).add_global_snapshot s)
        (SyncDataStore.mkStore σ Unit m)).global_history = xs.drop (xs.length - m) := by
  obtain ⟨h1, h2⟩ := fold_store_histories b xs (SyncDataStore.mkStore σ Unit m)
  simp only [SyncDataStore.mkStore] at h1 h2
  rw [foldl_boundedAppend] at h1 h2
  simp only [SyncDataStore.mkStore]
  refine ⟨?_, h1, ?_, h2⟩
  · rw [h1, List.length_drop]; omega
  · rw [h2, List.length_drop]; omega

/-- C1 witness: three appends into capacity one leave exactly the last
appended snapshot in both histories. -/
theorem c1_witness :
    1 < ([10, 20, 30] : List Nat).length ∧
    ((([10, 20, 30] : List Nat).foldl
        (fun st s => (st.add_bucket_snapshot "b1" s).add_global_snapshot s)
        (SyncDataStore.mkStore Nat Unit 1)).bucket_history "b1").length = 1 ∧
    (([10, 20, 30] : List Nat).foldl
        (fun st s => (st.add_bucket_snapshot "b1" s).add_global_snapshot s)
        (SyncDataStore.mkStore Nat Unit 1)).bucket_history "b1" = [30] ∧
    (([10, 20, 30] : List Nat).foldl
        (fun st s => (st.add_bucket_snapshot "b1" s).add_global_snapshot s)
        (SyncDataStore.mkStore Nat Unit 1)).global_history = [30] := by
  have h := c1_bounded_history Nat 1 "b1" [10, 20, 30] (by decide)
  exact ⟨by decide, h.1, by rw [h.2.1]; decide, by rw [h.2.2.2]; decide⟩

/- ================================================================
   C5
   ================================================================ -/

/-- C5 counterexample: a block that contains a syncing line followed later
by a caught-up line, yet parses to status syncing, because a further
syncing line follows the caught-up line.  This refutes the claim clause
that any such block parses to caught up. -/
theorem c5_counterexample :
    syncLineStatus "syncing" = some "syncing" ∧
    syncLineStatus "all caught up" = some "caught up" ∧
    splitLines lateSyncingText = ["syncing", "all caught up", "still syncing"] ∧
    (Collector.parse_sync_block lateSyncingText).status ≠ "caught up" := by
  decide

/-- C5 (amended): the global sync-status block parser scans every line
with no early exit and the LAST status-setting line wins (a line
containing caught up sets caught up, a line containing syncing and not
sync-colon sets syncing); in particular a syncing line followed later by a
caught-up line with no status-setting line after it parses as caught up. -/
theorem c5_last_status_line_wins :
    (∀ block : String,
      (Collector.parse_sync_block block).status
        = lastD "unknown" ((splitLines block).filterMap syncLineStatus)) ∧
    (Collector.parse_sync_block "metadata sync syncing\nmetadata is caught up with master").status
        = "caught up" := by
  refine ⟨parse_sync_block_status, by decide⟩

/- ================================================================
   C6
   ================================================================ -/

/-- C6: in a bucket-sync source-zone block in which no line matches any
status keyword, the status is inferred from the shard counts: caught up
when the incremental total is positive and both done counts reach their
totals, else syncing when either total is positive, else unknown. -/
theorem c6_bucket_status_inference (block : String)
    (h : ∀ l ∈ splitLines block, bucketLineStatus l = none) :
    (parse_bucket_source_block block).status =
      (if (parse_bucket_source_block block).incremental_sync_total > 0
          ∧ (parse_bucket_source_block block).incremental_sync_done
              ≥ (parse_bucket_source_block block).incremental_sync_total
          ∧ (parse_bucket_source_block block).full_sync_done
              ≥ (parse_bucket_source_block block).full_sync_total then "caught up"
       else if (parse_bucket_source_block block).incremental_sync_total > 0
          ∨ (parse_bucket_source_block block).full_sync_total > 0 then "syncing"
       else "unknown") := by
  have h0 : ((splitLines block).foldl parse_bucket_source_block_line
      { status := "unknown", full_sync_done := 0, full_sync_total := 0,
        incremental_sync_done := 0, incremental_sync_total := 0,
        shard_details := [] }).status = "unknown" := by
    rw [foldl_status_lastD parse_bucket_source_block_line BucketSourceBlock.status
        bucketLineStatus bucket_source_line_status,
      List.filterMap_eq_nil_iff.mpr h]
    rfl
  have hc := infer_counts_preserved ((splitLines block).foldl parse_bucket_source_block_line
      { status := "unknown", full_sync_done := 0, full_sync_total := 0,
        incremental_sync_done := 0, incremental_sync_total := 0,
        shard_details := [] })
  unfold parse_bucket_source_block
  rw [hc.1, hc.2.1, hc.2.2.1, hc.2.2.2]
  exact infer_shape _ h0

/-- C6 witness: a block whose lines carry shard counts but no status
keyword (the count lines contain sync-colon, which excludes the syncing
keyword) is inferred as syncing because the full-sync done count is short
of its total. -/
theorem c6_witness :
    (∀ l ∈ splitLines "full sync: 1/2 shards\nincremental sync: 3/3 shards",
        bucketLineStatus l = none) ∧
    (parse_bucket_source_block "full sync: 1/2 shards\nincremental sync: 3/3 shards").status
        = "syncing" := by
  refine ⟨by decide, ?_⟩
  rw [c6_bucket_status_inference "full sync: 1/2 shards\nincremental sync: 3/3 shards" (by decide)]
  decide

/- ================================================================
   C7
   ================================================================ -/

/-- The bracket index found by the left-to-right scan is a bracket
position and every earlier position is not one. -/
theorem findBracket_spec (l : List Char) (i : Nat) (h : findBracket l = some i) :
    (∃ c, l[i]? = some c ∧ isBracketChar c = true) ∧
    (∀ j, j < i → ∀ c, l[j]? = some c → isBracketChar c = false) := by
  induction l generalizing i with
  | nil => simp [findBracket] at h
  | cons c t ih =>
    by_cases hc : isBracketChar c = true
    · rw [findBracket, if_pos hc] at h
      have h0 : i = 0 := (Option.some_inj.mp h).symm
      subst h0
      exact ⟨⟨c, by simp, hc⟩, fun j hj => absurd hj (Nat.not_lt_zero j)⟩
    · rw [findBracket, if_neg hc] at h
      cases hf : findBracket t with
      | none => rw [hf] at h; simp at h
      | some k =>
        rw [hf] at h
        rw [Option.map_some'] at h
        have hik : i = k + 1 := (Option.some_inj.mp h).symm
        subst hik
        obtain ⟨hex, hall⟩ := ih k hf
        refine ⟨?_, ?_⟩
        · obtain ⟨d, hd, hbd⟩ := hex
          exact ⟨d, by simpa using hd, hbd⟩
        · intro j hj d hd
          cases j with
          | zero =>
            have hdc : c = d := by simpa using hd
            rw [← hdc]
            exact Bool.eq_false_iff.mpr hc
          | succ j2 =>
            exact hall j2 (by omega) d (by simpa using hd)

/-- C7: run_cli_json is total and never raises: for every execution
outcome it returns either an error-flagged result (timeout, exception,
non-zero exit, no bracket in the trimmed stdout, or decode failure) or the
JSON value obtained by decoding the trimmed stdout from its leftmost
opening brace or square bracket, skipping any preamble before it. -/
theorem c7_run_cli_json_never_raises (JVal : Type) (decode : String → Option JVal)
    (o : ExecOutcome) :
    (∃ e rc raw, run_cli_json decode o = CliJsonResult.errorResult e rc raw) ∨
    (∃ rc stdout stderr i v,
      o = ExecOutcome.completed rc stdout stderr ∧
      run_cli_json decode o = CliJsonResult.ok v ∧
      findBracket (strTrim stdout).data = some i ∧
      (∃ c, ((strTrim stdout).data)[i]? = some c ∧ isBracketChar c = true) ∧
      (∀ j, j < i → ∀ c, ((strTrim stdout).data)[j]? = some c → isBracketChar c = false) ∧
      decode (String.mk ((strTrim stdout).data.drop i)) = some v) := by
  cases o with
  | timeout => exact Or.inl ⟨_, _, _, rfl⟩
  | exc m => exact Or.inl ⟨_, _, _, rfl⟩
  | completed rc stdout stderr =>
    by_cases hrc : rc = 0
    · subst hrc
      cases hfb : findBracket (strTrim stdout).data with
      | none =>
        exact Or.inl ⟨"no JSON in output", none, some (takeStr 500 (strTrim stdout)),
          by simp [run_cli_json, hfb]⟩
      | some i =>
        cases hdec : decode (String.mk ((strTrim stdout).data.drop i)) with
        | none =>
          exact Or.inl ⟨"JSON parse", none, some (takeStr 500 (strTrim stdout)),
            by simp [run_cli_json, hfb, hdec]⟩
        | some v =>
          obtain ⟨hex, hall⟩ := findBracket_spec _ _ hfb
          exact Or.inr ⟨0, stdout, stderr, i, v, rfl,
            by simp [run_cli_json, hfb, hdec], hfb, hex, hall, hdec⟩
    · exact Or.inl ⟨strTrim stderr, some rc, none, by simp [run_cli_json, hrc]⟩

/- ================================================================
   C9
   ================================================================ -/

/-- Setting per-bucket errors leaves the global list unchanged, through a
whole fold. -/
theorem foldl_set_bucket_errors_global {σ ε : Type} (bs : List String)
    (f : String → List ε) :
    ∀ st : SyncDataStore σ ε,
      (bs.foldl (fun s b2 => s.set_bucket_errors b2 (f b2)) st).global_errors
        = st.global_errors := by
  induction bs with
  | nil => intro st; rfl
  | cons b0 t ih =>
    intro st
    rw [List.foldl_cons, ih]
    rfl

/-- Pointwise effect of folding per-bucket error replacement over a list
of bucket names, when the written value depends only on the name. -/
theorem foldl_set_bucket_errors {σ ε : Type} (bs : List String) (f : String → List ε)
    (b : String) :
    ∀ st : SyncDataStore σ ε,
      (bs.foldl (fun s b2 => s.set_bucket_errors b2 (f b2)) st).bucket_errors b
        = if b ∈ bs then f b else st.bucket_errors b := by
  induction bs with
  | nil => intro st; simp
  | cons b0 t ih =>
    intro st
    rw [List.foldl_cons, ih]
    by_cases hbt : b ∈ t
    · simp [hbt]
    · by_cases hb0 : b = b0
      · subst hb0
        simp [hbt, SyncDataStore.set_bucket_errors]
      · simp [hbt, hb0, SyncDataStore.set_bucket_errors]

/-- C9: in a successful sync-error collection cycle the global error list
is replaced wholesale by the newly decoded flat list, and the per-bucket
error list is replaced (by the group of that bucket, the filter of the
flat list) exactly for the buckets credited with errors this cycle; every
other bucket, in particular every bucket with zero errors this cycle,
keeps its previously stored list unchanged. -/
theorem c9_error_lists_replacement (σ : Type) (ts : String) (shards : List ErrShard)
    (st : SyncDataStore σ SyncError) :
    (collect_sync_errors_store ts shards st).global_errors = syncErrorsOf ts shards ∧
    ∀ b : String,
      (collect_sync_errors_store ts shards st).bucket_errors b =
        if b ∈ cycleBuckets (syncErrorsOf ts shards) then
          (syncErrorsOf ts shards).filter (fun e => e.bucket == b)
        else st.bucket_errors b := by
  constructor
  · unfold collect_sync_errors_store
    rw [foldl_set_bucket_errors_global]
    rfl
  · intro b
    unfold collect_sync_errors_store
    rw [foldl_set_bucket_errors]
    rfl

/- ================================================================
   C10
   ================================================================ -/

/-- The last element of a list is an element of it. -/
theorem mem_of_getLast_opt {α : Type} (l : List α) (a : α) :
    l.getLast? = some a → a ∈ l := by
  induction l with
  | nil => intro h; simp at h
  | cons x xs ih =>
    cases xs with
    | nil =>
      intro h
      simp at h
      simp [h]
    | cons y ys =>
      intro h
      rw [List.getLast?_cons_cons] at h
      exact List.mem_cons_of_mem x (ih h)

/-- Appending one item to the fold rewrites the map at that nonempty
bucket name and leaves it unchanged otherwise. -/
theorem parse_bucket_stats_step (ys : List BucketStatsItem) (x : BucketStatsItem)
    (b : String) :
    parse_bucket_stats (ys ++ [x]) b =
      if x.bucket ≠ "" ∧ b = x.bucket then some (statsOfItem x)
      else parse_bucket_stats ys b := by
  unfold parse_bucket_stats
  rw [List.foldl_append, List.foldl_cons, List.foldl_nil]
  by_cases hx : x.bucket = ""
  · simp [hx]
  · by_cases hb : b = x.bucket
    · simp [hx, hb]
    · simp [hx, hb]

/-- The parsed bucket-stats map at a name is the stats of the last item
carrying that nonempty name, when one exists. -/
theorem parse_bucket_stats_lastWrite (items : List BucketStatsItem) (b : String) :
    parse_bucket_stats items b =
      ((items.filter (fun it => it.bucket == b && it.bucket != "")).getLast?).map
        statsOfItem := by
  induction items using List.reverseRecOn with
  | nil => rfl
  | append_singleton ys x ih =>
    rw [parse_bucket_stats_step, List.filter_append]
    by_cases hx : x.bucket = ""
    · rw [if_neg (by simp [hx])]
      have hf : List.filter (fun it => it.bucket == b && it.bucket != "") [x] = [] := by
        simp [List.filter_cons, hx]
      rw [hf, List.append_nil, ih]
    · by_cases hb : b = x.bucket
      · rw [if_pos (show x.bucket ≠ "" ∧ b = x.bucket from ⟨hx, hb⟩)]
        have hf : List.filter (fun it => it.bucket == b && it.bucket != "") [x] = [x] := by
          simp [List.filter_cons, hx, hb]
        rw [hf, List.getLast?_concat]
        rfl
      · rw [if_neg (by tauto)]
        have hf : List.filter (fun it => it.bucket == b && it.bucket != "") [x] = [] := by
          simp [List.filter_cons]
          intro hxb
          exact absurd hxb.symm hb
        rw [hf, List.append_nil, ih]

/-- C10: every entry of the parsed bucket-stats map comes from an item of
the input whose bucket name is that nonempty key, and its size_actual
field is size_kb_actual times 1024 when that usage key is present and
otherwise the size usage field with default zero; items with a missing or
empty bucket name contribute no entry. -/
theorem c10_parse_bucket_stats (items : List BucketStatsItem) (b : String)
    (s : BucketStats) (h : parse_bucket_stats items b = some s) :
    b ≠ "" ∧ ∃ it, it ∈ items ∧ it.bucket = b ∧ s = statsOfItem it ∧
      s.size_actual =
        (match it.rgw_main.bind RgwMainUsage.size_kb_actual with
         | some k => k * 1024
         | none => (it.rgw_main.bind RgwMainUsage.size).getD 0) := by
  rw [parse_bucket_stats_lastWrite] at h
  obtain ⟨it, hlast, hs⟩ : ∃ it,
      (items.filter (fun it => it.bucket == b && it.bucket != "")).getLast? = some it ∧
      statsOfItem it = s := by
    cases hg : (items.filter (fun it => it.bucket == b && it.bucket != "")).getLast? with
    | none => rw [hg] at h; simp at h
    | some it0 =>
      rw [hg] at h
      rw [Option.map_some'] at h
      exact ⟨it0, rfl, Option.some_inj.mp h⟩
  have hmemf := mem_of_getLast_opt _ _ hlast
  have hmem : it ∈ items := List.mem_of_mem_filter hmemf
  have hpred := List.of_mem_filter hmemf
  simp only [Bool.and_eq_true, beq_iff_eq, bne_iff_ne, ne_eq] at hpred
  obtain ⟨hbeq, hbne⟩ := hpred
  subst hbeq
  refine ⟨hbne, it, hmem, rfl, hs.symm, ?_⟩
  rw [← hs]
  rfl

/-- C10 witness: a single item with bucket name b1 and a present
size_kb_actual of three yields an entry whose size_actual is 3072. -/
theorem c10_witness :
    ("b1" : String) ≠ "" ∧ ∃ it, it ∈ [sampleStatsItem] ∧ it.bucket = "b1" ∧
      statsOfItem sampleStatsItem = statsOfItem it ∧
      (statsOfItem sampleStatsItem).size_actual =
        (match it.rgw_main.bind RgwMainUsage.size_kb_actual with
         | some k => k * 1024
         | none => (it.rgw_main.bind RgwMainUsage.size).getD 0) :=
  c10_parse_bucket_stats [sampleStatsItem] "b1" (statsOfItem sampleStatsItem) (by decide)

/- ================================================================
   Rounding and percentage lemmas
   ================================================================ -/

/-- Two-decimal rounding is monotone. -/
theorem round2_mono : Monotone round2 := by
  intro a b hab
  unfold round2
  rw [div_le_div_iff_of_pos_right (by norm_num : (0 : ℚ) < 100)]
  exact_mod_cast Int.floor_mono (by linarith)

/-- Two-decimal rounding commutes with binary minimum. -/
theorem round2_min (a b : ℚ) : round2 (min a b) = min (round2 a) (round2 b) :=
  round2_mono.map_min

/-- Two-decimal rounding preserves nonnegativity. -/
theorem round2_nonneg (q : ℚ) (h : 0 ≤ q) : 0 ≤ round2 q := by
  unfold round2
  apply div_nonneg _ (by norm_num)
  have h2 : (0 : ℤ) ≤ ⌊q * 100 + 1/2⌋ := by
    apply Int.floor_nonneg.mpr
    nlinarith
  exact_mod_cast h2

/-- Two-decimal rounding preserves the upper bound one hundred. -/
theorem round2_le_100 (q : ℚ) (h : q ≤ 100) : round2 q ≤ 100 := by
  unfold round2
  have h1 : (⌊q * 100 + 1/2⌋ : ℤ) ≤ ⌊(10000 : ℚ) + 1/2⌋ := Int.floor_mono (by nlinarith)
  have h2 : (⌊(10000 : ℚ) + 1/2⌋ : ℤ) = 10000 := by
    rw [Int.floor_eq_iff]
    constructor <;> norm_num
  have h3 : ((⌊q * 100 + 1/2⌋ : ℤ) : ℚ) ≤ 10000 := by
    exact_mod_cast h1.trans_eq h2
  linarith

/-- Evaluation rule for two-decimal rounding. -/
theorem round2_eq (q : ℚ) (n : ℤ) (h1 : (n : ℚ) ≤ q * 100 + 1/2)
    (h2 : q * 100 + 1/2 < (n : ℚ) + 1) :
    round2 q = (n : ℚ) / 100 := by
  unfold round2
  congr 1
  exact_mod_cast Int.floor_eq_iff.mpr ⟨h1, by exact_mod_cast h2⟩

/-- Two-decimal rounding distributes over a running minimum. -/
theorem round2_foldl_min (t : List ℚ) : ∀ a : ℚ,
    round2 (t.foldl min a) = (t.map round2).foldl min (round2 a) := by
  induction t with
  | nil => intro a; rfl
  | cons x xs ih =>
    intro a
    rw [List.foldl_cons, List.map_cons, List.foldl_cons, ih, round2_min]

/-- The unrounded per-secondary percentage is nonnegative. -/
theorem codePct_nonneg (p sec : BucketStats) : 0 ≤ codePct p sec := by
  unfold codePct
  split_ifs with h1 h2
  · exact le_min (by positivity) (by norm_num)
  · norm_num
  · exact le_refl 0

/-- The unrounded per-secondary percentage is at most one hundred. -/
theorem codePct_le_100 (p sec : BucketStats) : codePct p sec ≤ 100 := by
  unfold codePct
  split_ifs with h1 h2
  · exact min_le_right _ _
  · norm_num
  · norm_num

/-- The code percentage equals the specification percentage formula on the
object counts. -/
theorem codePct_eq_specPct (p sec : BucketStats) :
    codePct p sec = specPct p.num_objects sec.num_objects := rfl

/- ================================================================
   Snapshot fold lemmas
   ================================================================ -/

/-- Effect of folding the per-secondary step on every observed field. -/
theorem foldl_snapStep (p : BucketStats) (secs : List (String × Option BucketStats)) :
    ∀ acw : BucketSnapshot × ℚ,
      (secs.foldl (snapStep p) acw).1.replicas
          = acw.1.replicas
              ++ secs.map (fun z => (z.1, codeReplica p (z.2.getD defaultSecStats))) ∧
      (secs.foldl (snapStep p) acw).1.delta_objects
          = acw.1.delta_objects
              + (secs.map (fun z => (codeReplica p (z.2.getD defaultSecStats)).delta_objects)).sum ∧
      (secs.foldl (snapStep p) acw).1.delta_size
          = acw.1.delta_size
              + (secs.map (fun z => (codeReplica p (z.2.getD defaultSecStats)).delta_size)).sum ∧
      (secs.foldl (snapStep p) acw).2
          = (secs.map (fun z => codePct p (z.2.getD defaultSecStats))).foldl min acw.2 := by
  induction secs with
  | nil => intro acw; simp
  | cons z t ih =>
    intro acw
    rw [List.foldl_cons]
    obtain ⟨ih1, ih2, ih3, ih4⟩ := ih (snapStep p acw z)
    refine ⟨?_, ?_, ?_, ?_⟩
    · rw [ih1, List.map_cons]
      simp [snapStep, List.append_assoc]
    · rw [ih2, List.map_cons, List.sum_cons]
      simp [snapStep]
      ring
    · rw [ih3, List.map_cons, List.sum_cons]
      simp [snapStep]
      ring
    · rw [ih4, List.map_cons, List.foldl_cons]
      rfl

/-- Fields of a snapshot built with comparison data. -/
theorem buildBucketSnapshot_true (ts mn : String) (sz : Bool) (p : BucketStats)
    (secs : List (String × Option BucketStats)) :
    (buildBucketSnapshot ts mn true sz p secs).replicas
        = secs.map (fun z => (z.1, codeReplica p (z.2.getD defaultSecStats))) ∧
    (buildBucketSnapshot ts mn true sz p secs).delta_objects
        = (secs.map (fun z => (codeReplica p (z.2.getD defaultSecStats)).delta_objects)).sum ∧
    (buildBucketSnapshot ts mn true sz p secs).delta_size
        = (secs.map (fun z => (codeReplica p (z.2.getD defaultSecStats)).delta_size)).sum ∧
    (buildBucketSnapshot ts mn true sz p secs).sync_progress_pct
        = some (round2
            ((secs.map (fun z => codePct p (z.2.getD defaultSecStats))).foldl min 100)) := by
  unfold buildBucketSnapshot
  simp only [Bool.not_true, Bool.false_eq_true, if_false]
  obtain ⟨h1, h2, h3, h4⟩ := foldl_snapStep p secs
    ({ timestamp := ts, primary_zone := mn, primary := p, replicas := [],
       no_secondary_data := false, single_zone := sz,
       sync_progress_pct := some 100,
       delta_objects := 0, delta_size := 0 }, 100)
  refine ⟨?_, ?_, ?_, ?_⟩
  · rw [h1]; rfl
  · rw [h2]; simp
  · rw [h3]; simp
  · rw [h4]

/- ================================================================
   C2
   ================================================================ -/

/-- C2 counterexample: with three primary objects and one secondary
object, the stored per-secondary percentage is the two-decimal rounding
33.33, while the exact formula of the claim gives 100/3; so the stored
field does not equal min(secondary/primary*100, 100) as stated. -/
theorem c2_counterexample :
    pStats3.num_objects = 3 ∧ sStats1.num_objects = 1 ∧
    (buildBucketSnapshot "t" "m" true false pStats3 [("z2", some sStats1)]).replicas.map
        (fun e => e.2.sync_progress_pct) = [(3333 : ℚ)/100] ∧
    ((3333 : ℚ)/100) ≠ min (((1 : ℚ) / 3) * 100) 100 := by
  refine ⟨rfl, rfl, ?_, ?_⟩
  · rw [(buildBucketSnapshot_true "t" "m" false pStats3 [("z2", some sStats1)]).1]
    simp only [List.map_cons, List.map_nil, Option.getD_some, List.cons.injEq, and_true]
    show round2 (codePct pStats3 sStats1) = (3333 : ℚ)/100
    have hpct : codePct pStats3 sStats1 = 100/3 := by
      unfold codePct pStats3 sStats1 defaultSecStats
      norm_num
    rw [hpct, round2_eq (100/3) 3333 (by norm_num) (by norm_num)]
    norm_num
  · rw [min_eq_left (by norm_num)]
    norm_num

/-- C2 (amended): every per-secondary replica record of a bucket snapshot
stores the two clamped deltas exactly as max(primary minus secondary, 0),
and stores the specification percentage formula rounded to two decimals;
consequently the stored percentage always lies between zero and one
hundred and the deltas are never negative. -/
theorem c2_replica_formulas (ts mn : String) (cmp sz : Bool) (p : BucketStats)
    (secs : List (String × Option BucketStats)) (zn : String) (r : Replica)
    (hmem : (zn, r) ∈ (buildBucketSnapshot ts mn cmp sz p secs).replicas) :
    r.delta_objects = max ((p.num_objects : ℤ) - (r.stats.num_objects : ℤ)) 0 ∧
    r.delta_size = max ((p.size_actual : ℤ) - (r.stats.size_actual : ℤ)) 0 ∧
    r.sync_progress_pct = round2 (specPct p.num_objects r.stats.num_objects) ∧
    0 ≤ r.sync_progress_pct ∧ r.sync_progress_pct ≤ 100 ∧
    0 ≤ r.delta_objects ∧ 0 ≤ r.delta_size := by
  have hform : ∃ sec : BucketStats, r = codeReplica p sec := by
    cases cmp with
    | false =>
      exfalso
      simp [buildBucketSnapshot] at hmem
    | true =>
      rw [(buildBucketSnapshot_true ts mn sz p secs).1] at hmem
      obtain ⟨z, hz, heq⟩ := List.mem_map.mp hmem
      exact ⟨z.2.getD defaultSecStats, ((Prod.mk.injEq _ _ _ _).mp heq).2.symm⟩
  obtain ⟨sec, rfl⟩ := hform
  refine ⟨rfl, rfl, rfl, ?_, ?_, le_max_right _ _, le_max_right _ _⟩
  · exact round2_nonneg _ (codePct_nonneg p sec)
  · exact round2_le_100 _ (codePct_le_100 p sec)

/-- C2 witness: replica of an eighty-object secondary against a
one-hundred-object primary. -/
theorem c2_witness :
    (codeReplica pStats100 sStats80).delta_objects
        = max ((pStats100.num_objects : ℤ)
            - ((codeReplica pStats100 sStats80).stats.num_objects : ℤ)) 0 ∧
    (codeReplica pStats100 sStats80).delta_size
        = max ((pStats100.size_actual : ℤ)
            - ((codeReplica pStats100 sStats80).stats.size_actual : ℤ)) 0 ∧
    (codeReplica pStats100 sStats80).sync_progress_pct
        = round2 (specPct pStats100.num_objects
            (codeReplica pStats100 sStats80).stats.num_objects) ∧
    0 ≤ (codeReplica pStats100 sStats80).sync_progress_pct ∧
    (codeReplica pStats100 sStats80).sync_progress_pct ≤ 100 ∧
    0 ≤ (codeReplica pStats100 sStats80).delta_objects ∧
    0 ≤ (codeReplica pStats100 sStats80).delta_size :=
  c2_replica_formulas "t" "m" true false pStats100 [("z2", some sStats80)] "z2"
    (codeReplica pStats100 sStats80)
    (by simp [buildBucketSnapshot, snapStep])

/- ================================================================
   C3
   ================================================================ -/

/-- C3: for a snapshot built with comparison data from a nonempty
secondary list, the headline percentage is the minimum of the stored
per-secondary percentages, and each aggregate delta is the sum of the
corresponding stored per-secondary clamped deltas. -/
theorem c3_headline_min_and_sums (ts mn : String) (sz : Bool) (p : BucketStats)
    (secs : List (String × Option BucketStats)) (hne : secs ≠ []) :
    (buildBucketSnapshot ts mn true sz p secs).sync_progress_pct
        = some (minPct ((buildBucketSnapshot ts mn true sz p secs).replicas.map
            (fun e => e.2.sync_progress_pct))) ∧
    (buildBucketSnapshot ts mn true sz p secs).delta_objects
        = ((buildBucketSnapshot ts mn true sz p secs).replicas.map
            (fun e => e.2.delta_objects)).sum ∧
    (buildBucketSnapshot ts mn true sz p secs).delta_size
        = ((buildBucketSnapshot ts mn true sz p secs).replicas.map
            (fun e => e.2.delta_size)).sum := by
  obtain ⟨hrep, hdo, hds, hpct⟩ := buildBucketSnapshot_true ts mn sz p secs
  refine ⟨?_, ?_, ?_⟩
  · rw [hpct, hrep, List.map_map]
    obtain ⟨z0, t, rfl⟩ := List.exists_cons_of_ne_nil hne
    congr 1
    rw [List.map_cons, List.foldl_cons, min_eq_right (codePct_le_100 p _),
        round2_foldl_min, List.map_map, List.map_cons]
    rfl
  · rw [hdo, hrep, List.map_map]
    rfl
  · rw [hds, hrep, List.map_map]
    rfl

/-- C3 witness: one secondary at eighty of one hundred objects. -/
theorem c3_witness :
    ([("z2", some sStats80)] : List (String × Option BucketStats)) ≠ [] ∧
    ((buildBucketSnapshot "t" "m" true false pStats100 [("z2", some sStats80)]).sync_progress_pct
        = some (minPct ((buildBucketSnapshot "t" "m" true false pStats100
            [("z2", some sStats80)]).replicas.map (fun e => e.2.sync_progress_pct))) ∧
    (buildBucketSnapshot "t" "m" true false pStats100 [("z2", some sStats80)]).delta_objects
        = ((buildBucketSnapshot "t" "m" true false pStats100
            [("z2", some sStats80)]).replicas.map (fun e => e.2.delta_objects)).sum ∧
    (buildBucketSnapshot "t" "m" true false pStats100 [("z2", some sStats80)]).delta_size
        = ((buildBucketSnapshot "t" "m" true false pStats100
            [("z2", some sStats80)]).replicas.map (fun e => e.2.delta_size)).sum) :=
  ⟨List.cons_ne_nil _ _,
   c3_headline_min_and_sums "t" "m" false pStats100 [("z2", some sStats80)]
     (List.cons_ne_nil _ _)⟩

/- ================================================================
   C4
   ================================================================ -/

/-- C4: when no secondary zone returned any bucket stats this cycle
(whether secondaries exist or not), every snapshot produced carries the
no-secondary-data flag, a null percentage, zero deltas and an empty
replicas map, and its single-zone flag records whether there are no
secondary zones at all. -/
theorem c4_no_secondary_data (ts mn : String)
    (prim : List (String × BucketStats))
    (secs : List (String × List (String × BucketStats)))
    (h : ∀ z ∈ secs, z.2 = []) :
    ∀ e ∈ collectBucketSnapshots ts mn prim secs,
      e.2.no_secondary_data = true ∧ e.2.sync_progress_pct = none ∧
      e.2.delta_objects = 0 ∧ e.2.delta_size = 0 ∧ e.2.replicas = [] ∧
      e.2.single_zone = secs.isEmpty := by
  intro e he
  have hz : secs.filter (fun z => !z.2.isEmpty) = [] := by
    rw [List.filter_eq_nil_iff]
    intro z hzm
    simp [h z hzm]
  simp only [collectBucketSnapshots] at he
  rw [hz] at he
  simp only [List.map_nil, List.isEmpty_nil, Bool.not_true] at he
  obtain ⟨bp, hbp, rfl⟩ := List.mem_map.mp he
  simp [buildBucketSnapshot]

/-- C4 witness: one secondary zone that returned nothing. -/
theorem c4_witness :
    (∀ z ∈ ([("s1", ([] : List (String × BucketStats)))] :
        List (String × List (String × BucketStats))), z.2 = []) ∧
    ∀ e ∈ collectBucketSnapshots "t" "m" [("b", pStats100)] [("s1", [])],
      e.2.no_secondary_data = true ∧ e.2.sync_progress_pct = none ∧
      e.2.delta_objects = 0 ∧ e.2.delta_size = 0 ∧ e.2.replicas = [] ∧
      e.2.single_zone = ([("s1", ([] : List (String × BucketStats)))] :
          List (String × List (String × BucketStats))).isEmpty :=
  ⟨by decide,
   c4_no_secondary_data "t" "m" [("b", pStats100)] [("s1", [])] (by decide)⟩

/- ================================================================
   C8
   ================================================================ -/

/-- C8: the two copies of the global sync-status parser are not
equivalent.  On a realistic metadata block whose last line reports that
metadata is behind, the collector parser keeps status syncing (it has no
behind branch) while the agent parser reports behind.  This contradicts
the stated equivalence and the source comment that the agent copies are
kept in sync with the collector. -/
theorem c8_agent_parser_divergence :
    (Collector.parse_sync_status_text agentDivergenceText).metadata_sync.map SyncBlock.status
        = some "syncing" ∧
    (ZoneAgent.parse_sync_status_text agentDivergenceText).metadata_sync.map
        AgentSyncBlock.status = some "behind" ∧
    "syncing" ≠ "behind" := by
  decide
